import Mathlib

/-!
Shallow embedding of the sentiment-inference pipeline of
`src/py-agent/main.py` (Agent Quant System, Python Agent Service).

Modelling conventions:
* Python strings are Lean `String`s; `s[:n]`, `len(s)` and substring tests
  (`kw in s`) operate on the code-point list `s.toList`.
* `str.lower()` is modelled by `String.toLower` (ASCII case folding).  Every
  keyword and literal token in the program is either Chinese (unaffected by
  case folding) or plain ASCII, so the restriction to ASCII folding does not
  affect any of the inputs the theorems below touch.
* Python floats are modelled as exact rationals `ℚ`; the decimal literals of
  the source (`0.9`, `0.6`, `0.1`, ...) become the corresponding rationals.
* The external world (the OpenAI client and `json.loads` applied to its
  reply) is an oracle parameter: `Option ProviderStep` is `None` when no
  client is configured, `some .callFailed` when the provider call (or any
  step before parsing) raises, and `some (.replied content parsed)` when the
  call returned `content` (already `.strip()`-ped, line 179) on which
  `json.loads` produced `parsed`.
* Fallible Python expressions (attribute access on a non-dict, `float()`
  coercion, pydantic validation) return `Except PyError _`.
-/

/-- Python JSON values, the possible results of `json.loads`.  An object is
its field list; a duplicate key is resolved to the last binding, as in
Python's dict construction. -/
inductive Json where
  | null : Json
  | bool (b : Bool) : Json
  | num (q : ℚ) : Json
  | str (s : String) : Json
  | arr (elems : List Json) : Json
  | obj (fields : List (String × Json)) : Json
deriving Repr

/-- Python exceptions that the provider-path code of `real_analyze_news` can
raise after a successful JSON parse: `.get` on a non-dict
(`AttributeError`), `float()` on a non-coercible value
(`TypeError`/`ValueError`), and pydantic validation of
`NewsAnalysisResponse` (`ValidationError`). -/
inductive PyError where
  | attributeError : PyError
  | typeError : PyError
  | valueError : PyError
  | validationError : PyError
deriving Repr, DecidableEq

/-- `NewsAnalysisResponse` (main.py lines 57–62): symbol, sentiment,
reason, and a confidence score that pydantic constrains to
`ge=0.0, le=1.0`. -/
structure NewsAnalysisResponse where
  symbol : String
  sentiment : String
  reason : String
  confidence_score : ℚ
deriving Repr, DecidableEq

/-- Constructing a `NewsAnalysisResponse` in Python runs pydantic's field
validation: the `ge=0.0, le=1.0` bounds on `confidence_score` reject an
out-of-range value with a `ValidationError` (they do not clamp). -/
def mkNewsAnalysisResponse (symbol sentiment reason : String)
    (confidence_score : ℚ) : Except PyError NewsAnalysisResponse :=
  if 0 ≤ confidence_score ∧ confidence_score ≤ 1 then
    .ok ⟨symbol, sentiment, reason, confidence_score⟩
  else
    .error .validationError

/-- Python `str.lower()` (ASCII folding; see the header note), computed on
the code-point list so that it reduces inside the kernel. -/
def pyLower (s : String) : String := String.mk (s.data.map Char.toLower)

/-- `charsStartWith hay needle` holds when `needle` is an initial segment of
`hay` (both as code-point lists). -/
def charsStartWith : List Char → List Char → Bool
  | _, [] => true
  | [], _ :: _ => false
  | a :: as, b :: bs => a == b && charsStartWith as bs

/-- `charsContain hay needle` holds when `needle` occurs contiguously
somewhere inside `hay`. -/
def charsContain : List Char → List Char → Bool
  | [], needle => needle.isEmpty
  | a :: t, needle => charsStartWith (a :: t) needle || charsContain t needle

/-- Python `needle in hay` on strings: substring (code-point) test. -/
def pyContains (hay needle : String) : Bool :=
  charsContain hay.toList needle.toList

/-- Python's two-argument `min`: the first argument when the two are equal,
otherwise the smaller.  (Agrees with `min` on `ℚ`, see `pyMin_eq_min`.) -/
def pyMin (a b : ℚ) : ℚ := if a ≤ b then a else b

theorem pyMin_eq_min (a b : ℚ) : pyMin a b = min a b := (min_def a b).symm

/-- `positive_keywords` (main.py line 98). -/
def positive_keywords : List String :=
  ["涨", "上涨", "利好", "买入", "推荐", "增长", "收益", "创新", "突破", "强劲"]

/-- `negative_keywords` (main.py line 99). -/
def negative_keywords : List String :=
  ["跌", "下跌", "利空", "卖出", "警告", "亏损", "风险", "危机", "衰退", "疲软"]

/-- The three accumulators of `mock_analyze_news` (lines 101–103):
`sentiment_score`, `positive_count`, `negative_count`. -/
structure Counts where
  score : ℤ
  positive_count : ℕ
  negative_count : ℕ
deriving Repr, DecidableEq

/-- Inner loop over `positive_keywords` for one news item (lines 107–110):
each contained keyword bumps `positive_count` and `sentiment_score`. -/
def posLoop (item_lower : String) (c : Counts) : Counts :=
  positive_keywords.foldl
    (fun acc kw =>
      if pyContains item_lower kw then
        { acc with positive_count := acc.positive_count + 1, score := acc.score + 1 }
      else acc) c

/-- Inner loop over `negative_keywords` for one news item (lines 111–114):
each contained keyword bumps `negative_count` and drops `sentiment_score`. -/
def negLoop (item_lower : String) (c : Counts) : Counts :=
  negative_keywords.foldl
    (fun acc kw =>
      if pyContains item_lower kw then
        { acc with negative_count := acc.negative_count + 1, score := acc.score - 1 }
      else acc) c

/-- Body of the `for item in news_items` loop (lines 105–114). -/
def processItem (c : Counts) (item : String) : Counts :=
  negLoop (pyLower item) (posLoop (pyLower item) c)

/-- The whole counting phase of `mock_analyze_news` (lines 101–114). -/
def analyzeCounts (news_items : List String) : Counts :=
  news_items.foldl processItem ⟨0, 0, 0⟩

/-- `mock_analyze_news` (main.py lines 93–135), the heuristic classifier.
The returned record always passes pydantic's range check (proved in
`mock_confidence_range` below), so it is constructed directly. -/
def mock_analyze_news (symbol : String) (news_items : List String) :
    NewsAnalysisResponse :=
  let c := analyzeCounts news_items
  if c.score > 0 then
    { symbol := symbol
      sentiment := "Positive"
      reason := "基于" ++ toString c.positive_count ++ "个正面信号的分析结果"
      confidence_score := pyMin 0.9 (0.6 + (c.positive_count : ℚ) * 0.1) }
  else if c.score < 0 then
    { symbol := symbol
      sentiment := "Negative"
      reason := "基于" ++ toString c.negative_count ++ "个负面信号的分析结果"
      confidence_score := pyMin 0.9 (0.6 + (c.negative_count : ℚ) * 0.1) }
  else
    { symbol := symbol
      sentiment := "Neutral"
      reason := "未发现明确的正面或负面信号"
      confidence_score := 0.5 }

/-- Declarative per-item tally: how many positive keywords the lowered item
contains (each keyword counted once per item, by substring containment). -/
def posHits (item : String) : ℕ :=
  positive_keywords.countP (fun kw => pyContains (pyLower item) kw)

/-- Declarative per-item tally over the negative keyword set. -/
def negHits (item : String) : ℕ :=
  negative_keywords.countP (fun kw => pyContains (pyLower item) kw)

/-- Declarative total of positive-keyword hits over the whole text list. -/
def totalPos (news_items : List String) : ℕ :=
  (news_items.map posHits).sum

/-- Declarative total of negative-keyword hits over the whole text list. -/
def totalNeg (news_items : List String) : ℕ :=
  (news_items.map negHits).sum

/-- `news_text` (main.py line 147): the itemized news list embedded in the
prompt. -/
def news_text (news_items : List String) : String :=
  String.intercalate "\n" (news_items.map (fun item => "- " ++ item))

/-- The prompt f-string (main.py lines 148–165). -/
def build_prompt (symbol : String) (news_items : List String) : String :=
  "\n请分析以下关于股票 " ++ symbol ++ " 的新闻，并给出情绪分析结果。\n\n新闻内容：\n"
    ++ news_text news_items
    ++ "\n\n请从以下角度进行分析：\n1. 对股票价格的潜在影响\n2. 市场情绪倾向\n3. 投资建议倾向\n\n"
    ++ "请以JSON格式返回结果，包含以下字段：\n- sentiment: \"Positive\", \"Negative\", 或 \"Neutral\"\n"
    ++ "- reason: 详细的分析原因\n- confidence_score: 置信度分数（0.0-1.0）\n\n"
    ++ "分析要客观、专业，基于新闻内容的事实进行判断。\n"

/-- Python dict lookup `result.get(key, default)` without the default: the
object's field list is folded left so a duplicate key resolves to its last
binding, as in the dict `json.loads` builds. -/
def jsonGet (fields : List (String × Json)) (key : String) : Option Json :=
  fields.foldl (fun acc kv => if kv.1 == key then some kv.2 else acc) none

/-- Python `float(x)` on a JSON value: numbers pass through, booleans become
0/1, `None`/lists/dicts raise `TypeError`.  (Python additionally parses
numeric strings such as `float("0.5")`; no theorem below quantifies over a
string-typed `confidence_score`, and a non-numeric string raises
`ValueError` just as modelled here.) -/
def pyFloat : Json → Except PyError ℚ
  | .num q => .ok q
  | .bool b => .ok (if b then 1 else 0)
  | .str _ => .error .valueError
  | _ => .error .typeError

/-- Pydantic validation of a `str` field: a JSON string passes through,
anything else is rejected.  (Pydantic v1 would coerce numbers to strings;
the dependency is unpinned and no theorem below quantifies over a
non-string `sentiment`/`reason` value.) -/
def pyStrField : Json → Except PyError String
  | .str s => .ok s
  | _ => .error .validationError

/-- The structured-parse branch of `real_analyze_news` (lines 184–190): after
`json.loads` succeeded, read the three fields with their defaults and build
the response.  `float()` runs while the keyword arguments are evaluated, so
its failure precedes pydantic validation; `.get` on a non-dict JSON value
raises `AttributeError`.  Any error here is *not* a `JSONDecodeError`, so it
escapes to the outer handler (line 207) and triggers the heuristic
fallback. -/
def processStructured (symbol : String) (result : Json) :
    Except PyError NewsAnalysisResponse :=
  match result with
  | .obj fields =>
    match pyFloat ((jsonGet fields "confidence_score").getD (.num 0.7)) with
    | .error e => .error e
    | .ok conf =>
      match pyStrField ((jsonGet fields "sentiment").getD (.str "Neutral")) with
      | .error e => .error e
      | .ok sentiment =>
        match pyStrField ((jsonGet fields "reason").getD (.str "基于LLM分析的结果")) with
        | .error e => .error e
        | .ok reason => mkNewsAnalysisResponse symbol sentiment reason conf
  | _ => .error .attributeError

/-- The loose-text branch of `real_analyze_news` (lines 191–205), taken when
`json.loads` raises `JSONDecodeError`: scan the lowered raw text for
"positive" then "negative", truncate the reason to 200 code points with an
ellipsis marker, fix the confidence at 0.8. -/
def processLoose (symbol content : String) : NewsAnalysisResponse :=
  { symbol := symbol
    sentiment :=
      if pyContains (pyLower content) "positive" then "Positive"
      else if pyContains (pyLower content) "negative" then "Negative"
      else "Neutral"
    reason :=
      if content.toList.length > 200 then String.mk (content.toList.take 200) ++ "..."
      else content
    confidence_score := 0.8 }

/-- Result of `json.loads` on the provider's reply: either a
`JSONDecodeError` or a JSON value. -/
inductive JsonParseResult where
  | decodeError : JsonParseResult
  | value (j : Json) : JsonParseResult

/-- Oracle for one provider interaction: the `chat.completions.create` call
(lines 168–179) either raises — `.callFailed`, covering network errors,
timeouts, and a `None` message body — or yields the stripped reply text
together with what `json.loads` makes of it. -/
inductive ProviderStep where
  | callFailed : ProviderStep
  | replied (content : String) (parsed : JsonParseResult) : ProviderStep

/-- `real_analyze_news` (main.py lines 138–209), the inference orchestrator:
no configured client delegates to the heuristic (lines 142–143); a raised
provider call and any post-parse error are caught by the outer handler and
delegate to the heuristic (lines 207–209); a `JSONDecodeError` takes the
loose-text branch; a parsed JSON value takes the structured branch. -/
def real_analyze_news (openai_client : Option ProviderStep) (symbol : String)
    (news_items : List String) : NewsAnalysisResponse :=
  match openai_client with
  | none => mock_analyze_news symbol news_items
  | some .callFailed => mock_analyze_news symbol news_items
  | some (.replied content .decodeError) => processLoose symbol content
  | some (.replied _ (.value j)) =>
      match processStructured symbol j with
      | .ok r => r
      | .error _ => mock_analyze_news symbol news_items

/-- The caller-visible error of the `/analyze` endpoint: an
`HTTPException(status_code=400, detail=...)`. -/
inductive HTTPError where
  | badRequest (detail : String) : HTTPError
deriving Repr, DecidableEq

/-- The `/analyze` endpoint `analyze_news` (main.py lines 222–250): an empty
symbol or an empty news list is rejected with a 400 before any
classification; otherwise the orchestrator's answer is returned.  (The
endpoint's own `except Exception` clause is unreachable because
`real_analyze_news` is total.) -/
def analyze_news (openai_client : Option ProviderStep) (symbol : String)
    (news_items : List String) : Except HTTPError NewsAnalysisResponse :=
  if symbol = "" then .error (.badRequest "股票代码不能为空")
  else if news_items = [] then .error (.badRequest "新闻列表不能为空")
  else .ok (real_analyze_news openai_client symbol news_items)

section CountLemmas

theorem posLoop_spec (t : String) (c : Counts) :
    posLoop t c =
      ⟨c.score + positive_keywords.countP (fun kw => pyContains t kw),
        c.positive_count + positive_keywords.countP (fun kw => pyContains t kw),
        c.negative_count⟩ := by
  unfold posLoop
  generalize positive_keywords = kws
  induction kws generalizing c with
  | nil => simp
  | cons k ks ih =>
    simp only [List.foldl_cons, List.countP_cons]
    by_cases h : pyContains t k = true
    · rw [if_pos h, ih]
      simp only [h, if_true, Counts.mk.injEq]
      refine ⟨?_, ?_, ?_⟩ <;> (first | trivial | (push_cast; ring))
    · rw [if_neg h, ih]
      simp [h]

theorem negLoop_spec (t : String) (c : Counts) :
    negLoop t c =
      ⟨c.score - negative_keywords.countP (fun kw => pyContains t kw),
        c.positive_count,
        c.negative_count + negative_keywords.countP (fun kw => pyContains t kw)⟩ := by
  unfold negLoop
  generalize negative_keywords = kws
  induction kws generalizing c with
  | nil => simp
  | cons k ks ih =>
    simp only [List.foldl_cons, List.countP_cons]
    by_cases h : pyContains t k = true
    · rw [if_pos h, ih]
      simp only [h, if_true, Counts.mk.injEq]
      refine ⟨?_, ?_, ?_⟩ <;> (first | trivial | (push_cast; ring))
    · rw [if_neg h, ih]
      simp [h]

theorem processItem_spec (c : Counts) (item : String) :
    processItem c item =
      ⟨c.score + posHits item - negHits item,
        c.positive_count + posHits item,
        c.negative_count + negHits item⟩ := by
  unfold processItem
  rw [posLoop_spec, negLoop_spec]
  simp [posHits, negHits]

theorem foldl_processItem_spec (news_items : List String) (c : Counts) :
    news_items.foldl processItem c =
      ⟨c.score + totalPos news_items - totalNeg news_items,
        c.positive_count + totalPos news_items,
        c.negative_count + totalNeg news_items⟩ := by
  induction news_items generalizing c with
  | nil => simp [totalPos, totalNeg]
  | cons item rest ih =>
    simp only [List.foldl_cons]
    rw [processItem_spec, ih]
    simp only [totalPos, totalNeg, List.map_cons, List.sum_cons, Counts.mk.injEq]
    refine ⟨?_, ?_, ?_⟩ <;> (first | trivial | (push_cast; ring))

theorem analyzeCounts_spec (news_items : List String) :
    analyzeCounts news_items =
      ⟨(totalPos news_items : ℤ) - (totalNeg news_items : ℤ),
        totalPos news_items, totalNeg news_items⟩ := by
  unfold analyzeCounts
  rw [foldl_processItem_spec]
  simp

end CountLemmas

example : analyzeCounts ["科技股上涨"] = ⟨2, 2, 0⟩ := by decide
example : totalPos ["苹果发布新iPhone", "科技股上涨"] = 2 := by decide
example :
    mock_analyze_news "AAPL" ["科技股上涨"] =
      ⟨"AAPL", "Positive", "基于2个正面信号的分析结果", 0.8⟩ := by
  have h : analyzeCounts ["科技股上涨"] = ⟨2, 2, 0⟩ := by decide
  simp only [mock_analyze_news, h]
  norm_num [pyMin]
  rfl

/-- A string whose code-point list is nonempty is not `""`. -/
theorem ne_empty_of_data_ne_nil (s : String) (h : s.data ≠ []) : s ≠ "" :=
  fun e => h (e ▸ rfl)

/-- `mock_analyze_news` with its `let` binding expanded, for case
splitting. -/
theorem mock_analyze_news_def (symbol : String) (news_items : List String) :
    mock_analyze_news symbol news_items =
      if (analyzeCounts news_items).score > 0 then
        ⟨symbol, "Positive",
          "基于" ++ toString (analyzeCounts news_items).positive_count ++ "个正面信号的分析结果",
          pyMin 0.9 (0.6 + ((analyzeCounts news_items).positive_count : ℚ) * 0.1)⟩
      else if (analyzeCounts news_items).score < 0 then
        ⟨symbol, "Negative",
          "基于" ++ toString (analyzeCounts news_items).negative_count ++ "个负面信号的分析结果",
          pyMin 0.9 (0.6 + ((analyzeCounts news_items).negative_count : ℚ) * 0.1)⟩
      else
        ⟨symbol, "Neutral", "未发现明确的正面或负面信号", 0.5⟩ := rfl

/-- The heuristic classifier's confidence always lies in `[0, 1]` (so the
pydantic range check on `NewsAnalysisResponse` always passes on this
path). -/
theorem mock_confidence_range (symbol : String) (news_items : List String) :
    0 ≤ (mock_analyze_news symbol news_items).confidence_score ∧
      (mock_analyze_news symbol news_items).confidence_score ≤ 1 := by
  rw [mock_analyze_news_def]
  split
  · unfold pyMin
    split
    · norm_num
    · constructor
      · positivity
      · linarith [le_of_not_le (by assumption : ¬ (0.9:ℚ) ≤ _)]
  split
  · unfold pyMin
    split
    · norm_num
    · constructor
      · positivity
      · linarith [le_of_not_le (by assumption : ¬ (0.9:ℚ) ≤ _)]
  · norm_num

/-- The heuristic classifier's sentiment is one of the three enumerated
values and its reason is never the empty string. -/
theorem mock_sentiment_reason (symbol : String) (news_items : List String) :
    ((mock_analyze_news symbol news_items).sentiment = "Positive" ∨
      (mock_analyze_news symbol news_items).sentiment = "Negative" ∨
      (mock_analyze_news symbol news_items).sentiment = "Neutral") ∧
      (mock_analyze_news symbol news_items).reason ≠ "" := by
  rw [mock_analyze_news_def]
  split
  · exact ⟨Or.inl rfl, ne_empty_of_data_ne_nil _ (by simp [String.data_append])⟩
  split
  · exact ⟨Or.inr (Or.inl rfl), ne_empty_of_data_ne_nil _ (by simp [String.data_append])⟩
  · exact ⟨Or.inr (Or.inr rfl), ne_empty_of_data_ne_nil _ (by simp)⟩

/-- C4: the accumulated counters of the heuristic classifier equal, for each
input text, the number of keywords of each fixed set contained (case
insensitively, as substrings) in that text, summed over all texts, with
`sentiment_score = positive_count - negative_count`. -/
theorem heuristic_counting_spec (news_items : List String) :
    analyzeCounts news_items =
      ⟨((news_items.map (fun item =>
            positive_keywords.countP (fun kw => pyContains (pyLower item) kw))).sum : ℤ) -
          ((news_items.map (fun item =>
            negative_keywords.countP (fun kw => pyContains (pyLower item) kw))).sum : ℤ),
        (news_items.map (fun item =>
          positive_keywords.countP (fun kw => pyContains (pyLower item) kw))).sum,
        (news_items.map (fun item =>
          negative_keywords.countP (fun kw => pyContains (pyLower item) kw))).sum⟩ := by
  simpa [totalPos, totalNeg, posHits, negHits] using analyzeCounts_spec news_items

/-- C3: the heuristic decision policy on the accumulated counts.  With
`positive_count = totalPos`, `negative_count = totalNeg` and
`score = totalPos - totalNeg` (see `heuristic_counting_spec`): a positive
score yields Positive with confidence `min 0.9 (0.6 + positive_count*0.1)`
and a reason citing `positive_count`; a negative score yields Negative with
the symmetric confidence and reason; a zero score yields Neutral with
confidence 0.5 and the fixed no-clear-signal reason. -/
theorem heuristic_decision_policy (symbol : String) (news_items : List String) :
    ((totalNeg news_items : ℤ) < (totalPos news_items : ℤ) →
      mock_analyze_news symbol news_items =
        ⟨symbol, "Positive",
          "基于" ++ toString (totalPos news_items) ++ "个正面信号的分析结果",
          min 0.9 (0.6 + (totalPos news_items : ℚ) * 0.1)⟩) ∧
    ((totalPos news_items : ℤ) < (totalNeg news_items : ℤ) →
      mock_analyze_news symbol news_items =
        ⟨symbol, "Negative",
          "基于" ++ toString (totalNeg news_items) ++ "个负面信号的分析结果",
          min 0.9 (0.6 + (totalNeg news_items : ℚ) * 0.1)⟩) ∧
    (totalPos news_items = totalNeg news_items →
      mock_analyze_news symbol news_items =
        ⟨symbol, "Neutral", "未发现明确的正面或负面信号", 0.5⟩) := by
  rw [mock_analyze_news_def, analyzeCounts_spec]
  refine ⟨fun h => ?_, fun h => ?_, fun h => ?_⟩
  · rw [if_pos (show (totalPos news_items : ℤ) - (totalNeg news_items : ℤ) > 0 by omega),
      pyMin_eq_min]
  · rw [if_neg (show ¬ (totalPos news_items : ℤ) - (totalNeg news_items : ℤ) > 0 by omega),
      if_pos (show (totalPos news_items : ℤ) - (totalNeg news_items : ℤ) < 0 by omega),
      pyMin_eq_min]
  · rw [if_neg (show ¬ (totalPos news_items : ℤ) - (totalNeg news_items : ℤ) > 0 by omega),
      if_neg (show ¬ (totalPos news_items : ℤ) - (totalNeg news_items : ℤ) < 0 by omega)]

/-- Witness for `heuristic_decision_policy`, on the spec's own scenario 2:
"公司面临重大亏损风险" contains the two negative keywords "亏损" and "风险",
so the result is Negative with confidence 0.8 and a reason citing 2 negative
signals. -/
theorem heuristic_decision_policy_witness :
    mock_analyze_news "XYZ" ["公司面临重大亏损风险"] =
      ⟨"XYZ", "Negative", "基于2个负面信号的分析结果", 0.8⟩ := by
  have h := (heuristic_decision_policy "XYZ" ["公司面临重大亏损风险"]).2.1
  have hp : totalPos ["公司面临重大亏损风险"] = 0 := by decide
  have hn : totalNeg ["公司面临重大亏损风险"] = 2 := by decide
  rw [hp, hn] at h
  rw [h (by decide)]
  norm_num
  rfl

/-- C9 as stated is false: "科技股上涨" contains *two* positive keywords
("涨" and "上涨" both occur as substrings), so the confidence is 0.8, not
`0.6 + 1*0.1`, and the reason cites 2 positive signals, not 1. -/
theorem scenario_aapl_counterexample :
    (mock_analyze_news "AAPL" ["苹果发布新iPhone", "科技股上涨"]).confidence_score ≠
        0.6 + 1 * 0.1 ∧
      (mock_analyze_news "AAPL" ["苹果发布新iPhone", "科技股上涨"]).reason ≠
        "基于1个正面信号的分析结果" := by
  have h : analyzeCounts ["苹果发布新iPhone", "科技股上涨"] = ⟨2, 2, 0⟩ := by decide
  rw [mock_analyze_news_def, h]
  rw [if_pos (show ((⟨2, 2, 0⟩ : Counts)).score > 0 by decide)]
  constructor
  · norm_num [pyMin]
  · decide

/-- C9 (amended): on the heuristic path, symbol "AAPL" with texts
["苹果发布新iPhone", "科技股上涨"] yields sentiment Positive with confidence
0.8 (= 0.6 + 2×0.1, since both "涨" and "上涨" match) and a reason citing 2
positive signals. -/
theorem scenario_aapl_heuristic :
    mock_analyze_news "AAPL" ["苹果发布新iPhone", "科技股上涨"] =
      ⟨"AAPL", "Positive", "基于2个正面信号的分析结果", 0.8⟩ := by
  have h : analyzeCounts ["苹果发布新iPhone", "科技股上涨"] = ⟨2, 2, 0⟩ := by decide
  simp only [mock_analyze_news, h]
  norm_num [pyMin]
  rfl

/-- C1: with no `openai_client` configured, `real_analyze_news` returns
exactly `mock_analyze_news(symbol, news_items)` — the orchestrator output is
identical to the heuristic classifier's on every input. -/
theorem no_provider_delegates_to_heuristic (symbol : String)
    (news_items : List String) :
    real_analyze_news none symbol news_items =
      mock_analyze_news symbol news_items := rfl

/-- C2: if the provider call raises, or any post-parse step (attribute
access, `float()` coercion, pydantic validation) raises, `real_analyze_news`
returns `mock_analyze_news(symbol, news_items)`; being total, it never
propagates a provider error to the caller. -/
theorem provider_error_falls_back_to_heuristic (symbol content : String)
    (news_items : List String) (j : Json) (e : PyError)
    (h : processStructured symbol j = .error e) :
    real_analyze_news (some .callFailed) symbol news_items =
        mock_analyze_news symbol news_items ∧
      real_analyze_news (some (.replied content (.value j))) symbol news_items =
        mock_analyze_news symbol news_items := by
  refine ⟨rfl, ?_⟩
  simp [real_analyze_news, h]

/-- Witness for `provider_error_falls_back_to_heuristic`: a JSON reply that
is a bare string makes `.get` raise `AttributeError`, and the orchestrator
answers with the heuristic result. -/
theorem provider_error_falls_back_to_heuristic_witness :
    real_analyze_news (some .callFailed) "AAPL" ["公司发布季度报告"] =
        mock_analyze_news "AAPL" ["公司发布季度报告"] ∧
      real_analyze_news
          (some (.replied "oops" (.value (Json.str "oops")))) "AAPL"
          ["公司发布季度报告"] =
        mock_analyze_news "AAPL" ["公司发布季度报告"] :=
  provider_error_falls_back_to_heuristic "AAPL" "oops" ["公司发布季度报告"]
    (Json.str "oops") .attributeError rfl

/-- C6: on the loose-text path (JSON parsing failed), the sentiment follows
the positive-then-negative token scan of the lowered raw text (Neutral when
neither token occurs), the reason is the raw text truncated to 200 code
points with an ellipsis marker exactly when it is longer than 200, and the
confidence is the fixed 0.8. -/
theorem loose_parse_spec (symbol content : String) (news_items : List String) :
    (pyContains (pyLower content) "positive" = true →
      (real_analyze_news (some (.replied content .decodeError)) symbol
        news_items).sentiment = "Positive") ∧
    (pyContains (pyLower content) "positive" = false →
      pyContains (pyLower content) "negative" = true →
      (real_analyze_news (some (.replied content .decodeError)) symbol
        news_items).sentiment = "Negative") ∧
    (pyContains (pyLower content) "positive" = false →
      pyContains (pyLower content) "negative" = false →
      (real_analyze_news (some (.replied content .decodeError)) symbol
        news_items).sentiment = "Neutral") ∧
    (content.toList.length > 200 →
      (real_analyze_news (some (.replied content .decodeError)) symbol
        news_items).reason = String.mk (content.toList.take 200) ++ "...") ∧
    (¬ content.toList.length > 200 →
      (real_analyze_news (some (.replied content .decodeError)) symbol
        news_items).reason = content) ∧
    (real_analyze_news (some (.replied content .decodeError)) symbol
      news_items).confidence_score = 0.8 ∧
    (real_analyze_news (some (.replied content .decodeError)) symbol
      news_items).symbol = symbol := by
  refine ⟨fun h1 => ?_, fun h1 h2 => ?_, fun h1 h2 => ?_, fun h => ?_, fun h => ?_, ?_, ?_⟩
  · simp [real_analyze_news, processLoose, h1]
  · simp [real_analyze_news, processLoose, h1, h2]
  · simp [real_analyze_news, processLoose, h1, h2]
  · have h' : 200 < content.length := by simpa using h
    simp [real_analyze_news, processLoose, h']
  · have h' : ¬ 200 < content.length := by simpa using h
    simp [real_analyze_news, processLoose, h']
  · simp [real_analyze_news, processLoose]
  · simp [real_analyze_news, processLoose]

/-- Witness for `loose_parse_spec`: an unparsable reply containing
"POSITIVE" yields Positive, the raw text as reason, and confidence 0.8. -/
theorem loose_parse_spec_witness :
    (real_analyze_news (some (.replied "Overall POSITIVE outlook" .decodeError))
      "AAPL" ["公司发布季度报告"]).sentiment = "Positive" ∧
    (real_analyze_news (some (.replied "Overall POSITIVE outlook" .decodeError))
      "AAPL" ["公司发布季度报告"]).reason = "Overall POSITIVE outlook" ∧
    (real_analyze_news (some (.replied "Overall POSITIVE outlook" .decodeError))
      "AAPL" ["公司发布季度报告"]).confidence_score = 0.8 := by
  have h := loose_parse_spec "AAPL" "Overall POSITIVE outlook" ["公司发布季度报告"]
  exact ⟨h.1 (by decide), h.2.2.2.2.1 (by decide), h.2.2.2.2.2.1⟩

/-- C10: on the loose-text path, when the raw text contains both "positive"
and "negative" (case-insensitively), the positive check runs first, so the
sentiment is Positive. -/
theorem loose_parse_positive_priority (symbol content : String)
    (news_items : List String)
    (hp : pyContains (pyLower content) "positive" = true)
    (_hn : pyContains (pyLower content) "negative" = true) :
    (real_analyze_news (some (.replied content .decodeError)) symbol
      news_items).sentiment = "Positive" := by
  simp [real_analyze_news, processLoose, hp]

/-- Witness for `loose_parse_positive_priority`. -/
theorem loose_parse_positive_priority_witness :
    (real_analyze_news
      (some (.replied "positive but also negative signs" .decodeError))
      "AAPL" ["公司发布季度报告"]).sentiment = "Positive" :=
  loose_parse_positive_priority "AAPL" "positive but also negative signs"
    ["公司发布季度报告"] (by decide) (by decide)

/-- C8: the `/analyze` endpoint rejects an empty symbol or an empty news
list with a 400 validation error and returns no classification; on every
other input it answers `.ok` with the orchestrator's result, so validation
failure is the only caller-visible error. -/
theorem endpoint_validation (openai_client : Option ProviderStep)
    (symbol : String) (news_items : List String) :
    (symbol = "" ∨ news_items = [] →
      ∃ d, analyze_news openai_client symbol news_items = .error (.badRequest d)) ∧
    (symbol ≠ "" → news_items ≠ [] →
      analyze_news openai_client symbol news_items =
        .ok (real_analyze_news openai_client symbol news_items)) := by
  constructor
  · rintro (h | h)
    · exact ⟨"股票代码不能为空", by simp [analyze_news, h]⟩
    · by_cases hs : symbol = ""
      · exact ⟨"股票代码不能为空", by simp [analyze_news, hs]⟩
      · exact ⟨"新闻列表不能为空", by simp [analyze_news, hs, h]⟩
  · intro hs hn
    simp [analyze_news, hs, hn]

/-- Witness for `endpoint_validation`: spec scenario 4 (`texts = []` is
rejected) and a well-formed request that goes through. -/
theorem endpoint_validation_witness :
    (∃ d, analyze_news none "AAPL" [] = .error (.badRequest d)) ∧
      analyze_news none "AAPL" ["公司发布季度报告"] =
        .ok (real_analyze_news none "AAPL" ["公司发布季度报告"]) :=
  ⟨(endpoint_validation none "AAPL" []).1 (Or.inr rfl),
    (endpoint_validation none "AAPL" ["公司发布季度报告"]).2 (by decide) (by decide)⟩

/-- When the three fields of a parsed JSON object (with their defaults)
carry a string sentiment, a string reason and a numeric confidence, the
structured branch reduces to the validated response constructor. -/
theorem processStructured_fields (symbol : String)
    (fields : List (String × Json)) (sv rv : String) (q : ℚ)
    (hs : (jsonGet fields "sentiment").getD (.str "Neutral") = .str sv)
    (hr : (jsonGet fields "reason").getD (.str "基于LLM分析的结果") = .str rv)
    (hc : (jsonGet fields "confidence_score").getD (.num 0.7) = .num q) :
    processStructured symbol (.obj fields) =
      mkNewsAnalysisResponse symbol sv rv q := by
  simp only [processStructured]
  rw [hc, hs, hr]
  simp only [pyFloat, pyStrField]

/-- A response accepted by the structured branch has its confidence inside
pydantic's `[0, 1]` bounds. -/
theorem processStructured_ok_range (symbol : String) (j : Json)
    (r : NewsAnalysisResponse) (h : processStructured symbol j = .ok r) :
    0 ≤ r.confidence_score ∧ r.confidence_score ≤ 1 := by
  cases j <;> simp [processStructured] at h
  case obj fields =>
    cases hF : pyFloat ((jsonGet fields "confidence_score").getD (.num 0.7)) with
    | error e => rw [hF] at h; simp at h
    | ok q =>
      rw [hF] at h
      cases hS : pyStrField ((jsonGet fields "sentiment").getD (.str "Neutral")) with
      | error e => rw [hS] at h; simp at h
      | ok sv =>
        rw [hS] at h
        cases hR : pyStrField ((jsonGet fields "reason").getD (.str "基于LLM分析的结果")) with
        | error e => rw [hR] at h; simp at h
        | ok rv =>
          rw [hR] at h
          simp only [mkNewsAnalysisResponse] at h
          split_ifs at h with hcond
          simp only [Except.ok.injEq] at h
          rw [← h]
          exact hcond

/-- C5 is false as stated: the code never validates the parsed `sentiment`
against the enumeration.  A provider object carrying `sentiment: "bullish"`
is returned verbatim instead of defaulting to Neutral. -/
theorem provider_structured_parse_counterexample :
    (real_analyze_news
        (some (.replied "bullish"
          (.value (Json.obj
            [("sentiment", Json.str "bullish"), ("reason", Json.str "看多"),
              ("confidence_score", Json.num 1)]))))
        "AAPL" ["公司发布季度报告"]).sentiment = "bullish" ∧
      ¬ ("bullish" = "Positive" ∨ "bullish" = "Negative" ∨ "bullish" = "Neutral") := by
  have h := processStructured_fields "AAPL"
    [("sentiment", Json.str "bullish"), ("reason", Json.str "看多"),
      ("confidence_score", Json.num 1)]
    "bullish" "看多" 1 rfl rfl rfl
  have hmk : mkNewsAnalysisResponse "AAPL" "bullish" "看多" 1 =
      .ok ⟨"AAPL", "bullish", "看多", 1⟩ := by
    unfold mkNewsAnalysisResponse
    rw [if_pos ⟨by decide, by decide⟩]
  refine ⟨?_, by decide⟩
  simp [real_analyze_news, h, hmk]

/-- C5 (amended): when the provider's reply parses as a JSON object, the
parsed `sentiment` and `reason` strings are used verbatim (Neutral and the
generic provider-attribution string are only the *missing-field* defaults —
there is no enum validation), `confidence_score` defaults to 0.7 only when
missing, and there is no clamping: a numeric confidence outside `[0, 1]`
fails pydantic validation and the orchestrator falls back to the heuristic
result. -/
theorem provider_structured_parse_spec (symbol content : String)
    (news_items : List String) (fields : List (String × Json))
    (sv rv : String) (q : ℚ) :
    (jsonGet fields "sentiment" = some (.str sv) →
      jsonGet fields "reason" = some (.str rv) →
      jsonGet fields "confidence_score" = some (.num q) →
      0 ≤ q → q ≤ 1 →
      real_analyze_news (some (.replied content (.value (.obj fields))))
          symbol news_items = ⟨symbol, sv, rv, q⟩) ∧
    (jsonGet fields "sentiment" = none →
      jsonGet fields "reason" = none →
      jsonGet fields "confidence_score" = none →
      real_analyze_news (some (.replied content (.value (.obj fields))))
          symbol news_items = ⟨symbol, "Neutral", "基于LLM分析的结果", 0.7⟩) ∧
    (jsonGet fields "confidence_score" = some (.num q) → (q < 0 ∨ 1 < q) →
      real_analyze_news (some (.replied content (.value (.obj fields))))
          symbol news_items = mock_analyze_news symbol news_items) := by
  refine ⟨fun hs hr hc h0 h1 => ?_, fun hs hr hc => ?_, fun hc hq => ?_⟩
  · have h := processStructured_fields symbol fields sv rv q
      (by rw [hs]; rfl) (by rw [hr]; rfl) (by rw [hc]; rfl)
    have hmk : mkNewsAnalysisResponse symbol sv rv q =
        .ok ⟨symbol, sv, rv, q⟩ := by
      unfold mkNewsAnalysisResponse
      rw [if_pos ⟨h0, h1⟩]
    simp [real_analyze_news, h, hmk]
  · have h := processStructured_fields symbol fields "Neutral" "基于LLM分析的结果" 0.7
      (by rw [hs]; rfl) (by rw [hr]; rfl) (by rw [hc]; rfl)
    have hmk : mkNewsAnalysisResponse symbol "Neutral" "基于LLM分析的结果" 0.7 =
        .ok ⟨symbol, "Neutral", "基于LLM分析的结果", 0.7⟩ := by
      unfold mkNewsAnalysisResponse
      rw [if_pos (by norm_num)]
    simp [real_analyze_news, h, hmk]
  · have hmkerr : ∀ s r : String,
        mkNewsAnalysisResponse symbol s r q = .error .validationError := by
      intro s r
      unfold mkNewsAnalysisResponse
      rw [if_neg]
      rintro ⟨h0, h1⟩
      rcases hq with hq | hq <;> linarith
    have herr : ∃ e, processStructured symbol (.obj fields) = .error e := by
      simp only [processStructured]
      rw [hc]
      simp only [Option.getD_some, pyFloat]
      cases hS : pyStrField ((jsonGet fields "sentiment").getD (.str "Neutral")) with
      | error e => exact ⟨e, by simp [hS]⟩
      | ok s =>
        cases hR : pyStrField ((jsonGet fields "reason").getD (.str "基于LLM分析的结果")) with
        | error e => exact ⟨e, by simp [hS, hR]⟩
        | ok r => exact ⟨.validationError, by simp [hS, hR, hmkerr]⟩
    rcases herr with ⟨e, he⟩
    simp [real_analyze_news, he]

/-- Witness for `provider_structured_parse_spec`: a well-formed provider
object is returned field-for-field. -/
theorem provider_structured_parse_spec_witness :
    real_analyze_news
        (some (.replied "json"
          (.value (Json.obj
            [("sentiment", Json.str "Positive"), ("reason", Json.str "利好消息"),
              ("confidence_score", Json.num 1)]))))
        "AAPL" ["公司发布季度报告"] = ⟨"AAPL", "Positive", "利好消息", 1⟩ :=
  (provider_structured_parse_spec "AAPL" "json" ["公司发布季度报告"]
      [("sentiment", Json.str "Positive"), ("reason", Json.str "利好消息"),
        ("confidence_score", Json.num 1)]
      "Positive" "利好消息" 1).1 rfl rfl rfl (by decide) (by decide)

/-- C7 is false as stated: through the structured provider path the
sentiment and reason come from the provider verbatim, so a reply with
`sentiment: "HOLD"` and an empty reason is returned as-is — the sentiment is
none of the three enumerated values and the reason is empty. -/
theorem result_invariants_counterexample :
    (real_analyze_news
        (some (.replied "raw"
          (.value (Json.obj
            [("sentiment", Json.str "HOLD"), ("reason", Json.str ""),
              ("confidence_score", Json.num 1)]))))
        "TSLA" ["公司发布季度报告"]).sentiment ≠ "Positive" ∧
      (real_analyze_news
        (some (.replied "raw"
          (.value (Json.obj
            [("sentiment", Json.str "HOLD"), ("reason", Json.str ""),
              ("confidence_score", Json.num 1)]))))
        "TSLA" ["公司发布季度报告"]).sentiment ≠ "Negative" ∧
      (real_analyze_news
        (some (.replied "raw"
          (.value (Json.obj
            [("sentiment", Json.str "HOLD"), ("reason", Json.str ""),
              ("confidence_score", Json.num 1)]))))
        "TSLA" ["公司发布季度报告"]).sentiment ≠ "Neutral" ∧
      (real_analyze_news
        (some (.replied "raw"
          (.value (Json.obj
            [("sentiment", Json.str "HOLD"), ("reason", Json.str ""),
              ("confidence_score", Json.num 1)]))))
        "TSLA" ["公司发布季度报告"]).reason = "" := by
  have h := processStructured_fields "TSLA"
    [("sentiment", Json.str "HOLD"), ("reason", Json.str ""),
      ("confidence_score", Json.num 1)]
    "HOLD" "" 1 rfl rfl rfl
  have hmk : mkNewsAnalysisResponse "TSLA" "HOLD" "" 1 =
      .ok ⟨"TSLA", "HOLD", "", 1⟩ := by
    unfold mkNewsAnalysisResponse
    rw [if_pos ⟨by decide, by decide⟩]
  refine ⟨?_, ?_, ?_, ?_⟩ <;> simp [real_analyze_news, h, hmk]

/-- C7 (amended): every response the system returns has its confidence in
`[0, 1]` (pydantic validation guards the only branch that could exceed it);
on the heuristic path the sentiment is one of the three enumerated values
and the reason is non-empty; on the loose-text path the sentiment is one of
the three enumerated values.  On the structured provider path, sentiment and
reason are the provider's verbatim strings and can fall outside the
enumeration or be empty (see the counterexample). -/
theorem result_invariants (openai_client : Option ProviderStep)
    (symbol content : String) (news_items : List String) :
    (0 ≤ (real_analyze_news openai_client symbol news_items).confidence_score ∧
      (real_analyze_news openai_client symbol news_items).confidence_score ≤ 1) ∧
    ((mock_analyze_news symbol news_items).sentiment = "Positive" ∨
      (mock_analyze_news symbol news_items).sentiment = "Negative" ∨
      (mock_analyze_news symbol news_items).sentiment = "Neutral") ∧
    (mock_analyze_news symbol news_items).reason ≠ "" ∧
    ((processLoose symbol content).sentiment = "Positive" ∨
      (processLoose symbol content).sentiment = "Negative" ∨
      (processLoose symbol content).sentiment = "Neutral") := by
  refine ⟨?_, (mock_sentiment_reason symbol news_items).1,
    (mock_sentiment_reason symbol news_items).2, ?_⟩
  · cases openai_client with
    | none => exact mock_confidence_range symbol news_items
    | some step =>
      cases step with
      | callFailed => exact mock_confidence_range symbol news_items
      | replied c parsed =>
        cases parsed with
        | decodeError =>
          constructor <;> norm_num [real_analyze_news, processLoose]
        | value j =>
          cases hP : processStructured symbol j with
          | error e =>
            simpa [real_analyze_news, hP] using mock_confidence_range symbol news_items
          | ok r =>
            simpa [real_analyze_news, hP] using processStructured_ok_range symbol j r hP
  · unfold processLoose
    split_ifs <;> simp

/-- Witness for `result_invariants` at a concrete configuration and
request. -/
theorem result_invariants_witness :
    (0 ≤ (real_analyze_news none "AAPL" ["科技股上涨"]).confidence_score ∧
      (real_analyze_news none "AAPL" ["科技股上涨"]).confidence_score ≤ 1) ∧
    ((mock_analyze_news "AAPL" ["科技股上涨"]).sentiment = "Positive" ∨
      (mock_analyze_news "AAPL" ["科技股上涨"]).sentiment = "Negative" ∨
      (mock_analyze_news "AAPL" ["科技股上涨"]).sentiment = "Neutral") ∧
    (mock_analyze_news "AAPL" ["科技股上涨"]).reason ≠ "" ∧
    ((processLoose "AAPL" "no idea").sentiment = "Positive" ∨
      (processLoose "AAPL" "no idea").sentiment = "Negative" ∨
      (processLoose "AAPL" "no idea").sentiment = "Neutral") :=
  result_invariants none "AAPL" "no idea" ["科技股上涨"]
